import Mathlib

/-!
Verification of the MSFS flight monitor core (src/main.py).

Shallow embedding conventions:
* simulator scalar reads are modelled as exact rationals (ℚ); the great-circle
  math, which uses trigonometry, is modelled over ℝ;
* `SIM_ON_GROUND` is a number in the source (compared with `== 0`, `== 1` and
  Python truthiness), so it is a `ℕ` here;
* the haversine distance used inside the detector is passed as an explicit
  function parameter `dist`, so the detector itself stays executable; the
  actual source function `calculate_distance` is embedded separately over ℝ;
* wall-clock items (the `timestamp` string, `time.time()` cadence of the
  waypoint check, `time.sleep`) are abstracted: the timestamp is dropped from
  the records, the 2-second cadence becomes a per-tick boolean input, and the
  sleep durations are returned as data (1 for a normal tick, 2 after an error);
* Qt signal emissions become entries of an ordered event list; the
  `approach_signal` slot `add_approach_point` appends to `approach_path`, which
  is modelled as a direct append on the tick that emits the signal.
-/

namespace MSFS

/-- One telemetry sample, the seven scalar reads at the top of a tick of
`monitor_flight` (src/main.py lines 998-1004). -/
structure Sample where
  lat : ℚ
  lon : ℚ
  alt : ℚ
  vs : ℚ
  on_ground : ℕ
  g_force : ℚ
  heading : ℚ
  deriving DecidableEq

/-- A route waypoint as consumed by the monitor loop: identifier, position,
altitude and the one-shot pause flag. -/
structure Waypoint where
  id : String
  lat : ℚ
  lon : ℚ
  altitude : ℚ
  pause : Bool
  deriving DecidableEq

/-- The mutable `self.landing_data` dictionary (src/main.py lines 49-57).
The `timestamp` string (wall clock) is omitted from the model; `on_ground`
is the touchdown latch, initialized `True`. The keys `approach_distance`
and `avg_descent` are absent until first set, hence `Option`. -/
structure LandingData where
  touchdown_fpm : Option ℚ
  touchdown_g : Option ℚ
  touchdown_lat : Option ℚ
  touchdown_lon : Option ℚ
  on_ground : Bool
  airport : String
  approach_distance : Option ℚ
  avg_descent : Option ℚ
  deriving DecidableEq

/-- One persisted history row as built in `save_landing_to_history`
(src/main.py lines 1230-1239), minus the wall-clock timestamp. -/
structure HistoryEntry where
  fpm : Option ℚ
  g_force : Option ℚ
  lat : Option ℚ
  lon : Option ℚ
  airport : String
  rating : String
  rating_text : String
  deriving DecidableEq

/-- The observable effects of the loop: log/signal emissions and the one
discrete simulator command, in program order. -/
inductive Event where
  | airborne : Event
  | recordingApproach : Event
  | approachPoint (lat lon alt : ℚ) : Event
  | landing (d : LandingData) : Event
  | pauseSet : Event
  | waypointReached (id : String) : Event
  | warning : Event
  deriving DecidableEq

/-- A point of the approach path: (lat, lon, altitude). -/
abbrev Point : Type := ℚ × ℚ × ℚ

/-- The state mutated by the monitoring loop: the two locals of
`monitor_flight` (`was_airborne`, `recording_approach`) plus the instance
fields it touches (`landing_data`, `approach_path`, `landing_history`,
`waypoints`, `last_altitude`). -/
structure MState where
  was_airborne : Bool
  recording_approach : Bool
  approach_path : List Point
  landing_data : LandingData
  landing_history : List HistoryEntry
  waypoints : List Waypoint
  last_altitude : ℚ
  deriving DecidableEq

/-- Input of one loop iteration: either the seven reads all succeed (`ok`,
with the boolean saying whether the 2-second waypoint-check cadence is due
this tick), or some read raises (`err`, the `except` path). -/
inductive TickInput where
  | ok (sample : Sample) (waypoint_check_due : Bool) : TickInput
  | err : TickInput
  deriving DecidableEq

/-- `math.radians` : degrees to radians. -/
noncomputable def radians (x : ℝ) : ℝ := x * Real.pi / 180

/-- `calculate_distance` (src/main.py lines 1085-1094): haversine great-circle
distance in nautical miles, Earth radius 3440.065 nm. Total on all of ℝ⁴
(in Lean `Real.sqrt` and `Real.arcsin` are total functions). -/
noncomputable def calculate_distance (lat1 lon1 lat2 lon2 : ℝ) : ℝ :=
  let R : ℝ := 3440.065
  let lat1_rad := radians lat1
  let lat2_rad := radians lat2
  let delta_lat := radians (lat2 - lat1)
  let delta_lon := radians (lon2 - lon1)
  let a := Real.sin (delta_lat / 2) ^ 2 +
    Real.cos lat1_rad * Real.cos lat2_rad * Real.sin (delta_lon / 2) ^ 2
  let c := 2 * Real.arcsin (Real.sqrt a)
  R * c

/-- FPM scoring block of `get_landing_rating` (src/main.py lines 1101-1115). -/
def fpm_score (fpm : ℚ) : ℚ :=
  let abs_fpm := |fpm|
  if abs_fpm < 100 then 100
  else if abs_fpm < 200 then 85
  else if abs_fpm < 300 then 70
  else if abs_fpm < 400 then 50
  else if abs_fpm < 600 then 30
  else 10

/-- G-force scoring block of `get_landing_rating` (src/main.py lines 1117-1129). -/
def g_score (g_force : ℚ) : ℚ :=
  if g_force < 1.3 then 100
  else if g_force < 1.5 then 85
  else if g_force < 1.8 then 70
  else if g_force < 2.0 then 50
  else if g_force < 2.5 then 30
  else 10

/-- Weighted combination in `get_landing_rating` (src/main.py line 1132). -/
def combined_score (fpm g_force : ℚ) : ℚ :=
  fpm_score fpm * 0.6 + g_score g_force * 0.4

/-- `get_landing_rating` (src/main.py lines 1096-1144): returns the triple
(stars string, rating text, color). -/
def get_landing_rating (fpm g_force : ℚ) : String × String × String :=
  let combined := combined_score fpm g_force
  if combined ≥ 95 then ("⭐⭐⭐⭐⭐", "PERFECT - Butter Landing!", "#a6e3a1")
  else if combined ≥ 80 then ("⭐⭐⭐⭐", "Excellent Landing", "#a6e3a1")
  else if combined ≥ 65 then ("⭐⭐⭐", "Good Landing", "#f9e2af")
  else if combined ≥ 45 then ("⭐⭐", "Acceptable Landing", "#fab387")
  else ("⭐", "Hard Landing - Check Aircraft!", "#f38ba8")

/-- Entry construction in `save_landing_to_history` (src/main.py lines
1229-1239). At the only call site (the touchdown branch) `touchdown_fpm`
and `touchdown_g` are always set; `getD 0` stands for the unchecked
dictionary access of the source. -/
def mk_history_entry (data : LandingData) : HistoryEntry :=
  let r := get_landing_rating (data.touchdown_fpm.getD 0) (data.touchdown_g.getD 0)
  { fpm := data.touchdown_fpm
    g_force := data.touchdown_g
    lat := data.touchdown_lat
    lon := data.touchdown_lon
    airport := data.airport
    rating := r.1
    rating_text := r.2.1 }

/-- `save_landing_to_history` (src/main.py lines 1228-1243): insert at index
0 and truncate to the first 100 entries. Persistence and table refresh are
I/O on the resulting list and do not change it. -/
def save_landing_to_history (history : List HistoryEntry) (data : LandingData) :
    List HistoryEntry :=
  let h := mk_history_entry data :: history
  if h.length > 100 then h.take 100 else h

/-- The durable history file as the loader sees it: absent, present but
unparseable, or a parsed list of rows. -/
inductive HistoryFile where
  | absent : HistoryFile
  | malformed : HistoryFile
  | parsed (records : List HistoryEntry) : HistoryFile
  deriving DecidableEq

/-- `load_landing_history` (src/main.py lines 1210-1218): missing file and
parse failure both yield the empty list; a parsed file yields its rows. -/
def load_landing_history : HistoryFile → List HistoryEntry
  | .absent => []
  | .malformed => []
  | .parsed records => records

/-- `clear_history` (src/main.py lines 1256-1264), after the confirmation
dialog: the in-memory list becomes empty (and is persisted). -/
def clear_history_op : List HistoryEntry := []

/-- Sum of absolute consecutive altitude differences, the `total_vs`
comprehension of src/main.py line 1038. -/
def total_descent (path : List Point) : ℚ :=
  (List.zipWith (fun p q => |q.2.2 - p.2.2|) path path.tail).sum

/-- Takeoff branch (src/main.py lines 1010-1013). -/
def takeoff_step (s : MState) (sample : Sample) : MState × List Event :=
  if sample.on_ground = 0 ∧ s.was_airborne = false then
    ({ s with was_airborne := true
              landing_data := { s.landing_data with on_ground := false } },
     [Event.airborne])
  else (s, [])

/-- Approach-recording branch (src/main.py lines 1016-1020). `not on_ground`
on a number is Python truthiness, i.e. `on_ground = 0`. The emitted
`approach_signal` appends the point to `approach_path`. -/
def approach_step (s : MState) (sample : Sample) : MState × List Event :=
  if s.was_airborne = true ∧ sample.alt < 3000 ∧ sample.vs < -100 ∧
      sample.on_ground = 0 then
    ({ s with recording_approach := true
              approach_path := s.approach_path ++ [(sample.lat, sample.lon, sample.alt)] },
     (if s.recording_approach = false then [Event.recordingApproach] else []) ++
       [Event.approachPoint sample.lat sample.lon sample.alt])
  else (s, [])

/-- Landing branch (src/main.py lines 1023-1050): guarded by the latch
`landing_data.on_ground`; captures touchdown data, computes approach
statistics when the path has more than one point, saves to history and
resets `recording_approach`. The approach path itself is not modified. -/
def landing_step (dist : ℚ → ℚ → ℚ → ℚ → ℚ) (s : MState) (sample : Sample) :
    MState × List Event :=
  if sample.on_ground = 1 ∧ s.was_airborne = true ∧ s.landing_data.on_ground = false then
    let ld0 := { s.landing_data with
      touchdown_fpm := some sample.vs
      touchdown_g := some sample.g_force
      touchdown_lat := some sample.lat
      touchdown_lon := some sample.lon
      on_ground := true }
    let ld :=
      if s.approach_path.length > 1 then
        let start_point := s.approach_path.headI
        { ld0 with
          approach_distance := some (dist start_point.1 start_point.2.1 sample.lat sample.lon)
          avg_descent := some (total_descent s.approach_path / ((s.approach_path.length : ℚ) - 1)) }
      else ld0
    ({ s with landing_data := ld
              landing_history := save_landing_to_history s.landing_history ld
              recording_approach := false },
     [Event.landing ld])
  else (s, [])

/-- Waypoint proximity scan (src/main.py lines 1055-1062): for each waypoint
whose pause flag is set and that is within 0.5 nm, send `PAUSE_SET`, log the
arrival and clear its flag. Returns the updated list and the events. -/
def check_waypoints (dist : ℚ → ℚ → ℚ → ℚ → ℚ) (lat lon : ℚ) :
    List Waypoint → List Waypoint × List Event
  | [] => ([], [])
  | wp :: rest =>
    let head :=
      if wp.pause = true then
        if dist lat lon wp.lat wp.lon < 0.5 then
          ({ wp with pause := false }, [Event.pauseSet, Event.waypointReached wp.id])
        else (wp, ([] : List Event))
      else (wp, ([] : List Event))
    let tail := check_waypoints dist lat lon rest
    (head.1 :: tail.1, head.2 ++ tail.2)

/-- Cadence-gated waypoint check (src/main.py lines 1053-1063); the
wall-clock condition `current_time - last_check_time > 2` is the boolean
`due`. -/
def waypoint_step (dist : ℚ → ℚ → ℚ → ℚ → ℚ) (s : MState) (sample : Sample)
    (due : Bool) : MState × List Event :=
  if due = true then
    let r := check_waypoints dist sample.lat sample.lon s.waypoints
    ({ s with waypoints := r.1 }, r.2)
  else (s, [])

/-- One iteration of the `while self.monitoring` loop (src/main.py lines
996-1070). On a successful read the four branches run in program order and
`last_altitude` is updated; the tick sleeps 1 second. On a read failure the
`except` branch logs a warning and sleeps 2 seconds, leaving the state
untouched. The third component is the sleep duration. -/
def monitor_tick (dist : ℚ → ℚ → ℚ → ℚ → ℚ) (s : MState) :
    TickInput → MState × List Event × ℕ
  | .ok sample due =>
    let r1 := takeoff_step s sample
    let r2 := approach_step r1.1 sample
    let r3 := landing_step dist r2.1 sample
    let r4 := waypoint_step dist r3.1 sample due
    ({ r4.1 with last_altitude := sample.alt },
     r1.2 ++ r2.2 ++ r3.2 ++ r4.2, 1)
  | .err => (s, [Event.warning], 2)

/-- A whole monitoring session: the loop run over a finite list of tick
inputs, returning the final state and all events in emission order. -/
def monitor_run (dist : ℚ → ℚ → ℚ → ℚ → ℚ) (s : MState) :
    List TickInput → MState × List Event
  | [] => (s, [])
  | t :: ts =>
    let r := monitor_tick dist s t
    let rest := monitor_run dist r.1 ts
    (rest.1, r.2.1 ++ rest.2)

/-- `self.landing_data` as initialized in `__init__` (src/main.py lines
49-57): the latch `on_ground` starts `True`. -/
def initial_landing_data : LandingData :=
  { touchdown_fpm := none
    touchdown_g := none
    touchdown_lat := none
    touchdown_lon := none
    on_ground := true
    airport := "Unknown"
    approach_distance := none
    avg_descent := none }

/-- State at the start of a fresh monitoring session: `toggle_monitoring`
(src/main.py lines 977-985) clears `approach_path` and the thread entry
`monitor_flight` initializes its locals `was_airborne := false` and
`recording_approach := false`; `landing_data` still holds its `__init__`
value on the first session. -/
def initial_state (wps : List Waypoint) (hist : List HistoryEntry) : MState :=
  { was_airborne := false
    recording_approach := false
    approach_path := []
    landing_data := initial_landing_data
    landing_history := hist
    waypoints := wps
    last_altitude := 0 }

/-- Recognizer for touchdown (landing) events. -/
def is_touchdown_event : Event → Bool
  | .landing _ => true
  | _ => false

/-- Recognizer for airborne events. -/
def is_airborne_event : Event → Bool
  | .airborne => true
  | _ => false

/-- Recognizer for the discrete `PAUSE_SET` command. -/
def is_pause_command : Event → Bool
  | .pauseSet => true
  | _ => false

/-- Number of touchdown events in an event trace. -/
def touchdown_count (evs : List Event) : ℕ := (evs.filter is_touchdown_event).length

/-- Number of airborne events in an event trace. -/
def airborne_count (evs : List Event) : ℕ := (evs.filter is_airborne_event).length

/-- Number of pause commands in an event trace. -/
def pause_command_count (evs : List Event) : ℕ := (evs.filter is_pause_command).length

/-- Spec-side FPM scoring, written from the words of the spec: breakpoints
on |verticalSpeedFpm|, `<100→100, <200→85, <300→70, <400→50, <600→30,
else→10`. -/
def spec_fpm_score (v : ℚ) : ℚ :=
  if |v| < 100 then 100
  else if |v| < 200 then 85
  else if |v| < 300 then 70
  else if |v| < 400 then 50
  else if |v| < 600 then 30
  else 10

/-- Spec-side g-force scoring, written from the words of the spec:
`<1.3→100, <1.5→85, <1.8→70, <2.0→50, <2.5→30, else→10`. -/
def spec_g_score (g : ℚ) : ℚ :=
  if g < 1.3 then 100
  else if g < 1.5 then 85
  else if g < 1.8 then 70
  else if g < 2.0 then 50
  else if g < 2.5 then 30
  else 10

/-- Spec-side combined score: `0.6*fpmScore + 0.4*gScore`. -/
def spec_combined (v g : ℚ) : ℚ := 0.6 * spec_fpm_score v + 0.4 * spec_g_score g

/-- Spec-side star tier of the combined score: `≥95→5, ≥80→4, ≥65→3,
≥45→2, else→1`. -/
def spec_stars (v g : ℚ) : ℕ :=
  if spec_combined v g ≥ 95 then 5
  else if spec_combined v g ≥ 80 then 4
  else if spec_combined v g ≥ 65 then 3
  else if spec_combined v g ≥ 45 then 2
  else 1

/-- Spec-side average descent rate: the mean of |altitude[i] - altitude[i-1]|
over consecutive points of an altitude sequence. -/
def spec_avg_descent (alts : List ℚ) : ℚ :=
  (List.zipWith (fun a b => |b - a|) alts alts.tail).sum / ((alts.length : ℚ) - 1)

/-- A degenerate distance function used to instantiate the detector on
concrete runs whose claims do not depend on the distance value. -/
def dist0 : ℚ → ℚ → ℚ → ℚ → ℚ := fun _ _ _ _ => 0

/-- A constant distance function reporting 0.4 nm, for the waypoint
proximity scenario of the spec. -/
def dist04 : ℚ → ℚ → ℚ → ℚ → ℚ := fun _ _ _ _ => 0.4

/-- A concrete airborne-qualifying sample with a chosen on-ground reading:
high altitude, level flight. -/
def c1_sample (og : ℕ) : Sample :=
  { lat := 0, lon := 0, alt := 5000, vs := 0, on_ground := og, g_force := 1, heading := 0 }

/-- The tick inputs of the spec touchdown-latch scenario: on-ground
readings [0,0,1,1,0,1]. -/
def c1_ticks : List TickInput :=
  [.ok (c1_sample 0) false, .ok (c1_sample 0) false, .ok (c1_sample 1) false,
   .ok (c1_sample 1) false, .ok (c1_sample 0) false, .ok (c1_sample 1) false]

/-- A concrete sample for the approach/touchdown scenario. -/
def c4_sample (og : ℕ) (alt vs : ℚ) : Sample :=
  { lat := 0, lon := 0, alt := alt, vs := vs, on_ground := og, g_force := 7/5, heading := 0 }

/-- A takeoff, a two-point approach and a touchdown. -/
def c4_ticks : List TickInput :=
  [.ok (c4_sample 0 5000 0) false, .ok (c4_sample 0 2000 (-500)) false,
   .ok (c4_sample 0 1500 (-500)) false, .ok (c4_sample 1 1000 (-200)) false]

/-- A detector state about to touch down with a three-point approach path
at altitudes [2000, 1500, 1000]. -/
def c5_state : MState :=
  { was_airborne := true
    recording_approach := true
    approach_path := [(0, 0, 2000), (0, 0, 1500), (0, 0, 1000)]
    landing_data := { initial_landing_data with on_ground := false }
    landing_history := []
    waypoints := []
    last_altitude := 1000 }

/-- The touchdown sample for the approach-statistics scenario. -/
def c5_sample : Sample :=
  { lat := 0, lon := 0, alt := 900, vs := -200, on_ground := 1, g_force := 7/5, heading := 0 }

/-- A pause-flagged waypoint for the proximity scenario. -/
def c6_wp : Waypoint :=
  { id := "WP1", lat := 0, lon := 0, altitude := 0, pause := true }

/-- A concrete parsed history row for the loader scenario. -/
def sample_history_entry : HistoryEntry :=
  { fpm := none
    g_force := none
    lat := none
    lon := none
    airport := "X"
    rating := "r"
    rating_text := "t" }

end MSFS

namespace MSFS

/-- The spec combined score and the source combined score agree. -/
theorem spec_combined_eq_combined_score (v g : ℚ) :
    spec_combined v g = combined_score v g := by
  simp only [spec_combined, combined_score, spec_fpm_score, fpm_score, spec_g_score, g_score]
  ring

/-- C2: the landing rater follows the spec breakpoints, weights and tiers,
with the two concrete examples rate(50, 1.0) and rate(350, 1.6). -/
theorem c2_landing_rating_algorithm :
    (∀ v g : ℚ, ((get_landing_rating v g).1).length = spec_stars v g) ∧
    combined_score 50 1 = 100 ∧
    get_landing_rating 50 1 = ("⭐⭐⭐⭐⭐", "PERFECT - Butter Landing!", "#a6e3a1") ∧
    combined_score 350 1.6 = 58 ∧
    get_landing_rating 350 1.6 = ("⭐⭐", "Acceptable Landing", "#fab387") := by
  refine ⟨?_, ?_, ?_, ?_, ?_⟩
  · intro v g
    simp only [get_landing_rating, spec_stars, spec_combined_eq_combined_score]
    split_ifs <;> rfl
  · norm_num [combined_score, fpm_score, g_score]
  · norm_num [get_landing_rating, combined_score, fpm_score, g_score]
  · norm_num [combined_score, fpm_score, g_score]
  · norm_num [get_landing_rating, combined_score, fpm_score, g_score]

/-- Record is insertion at the head followed by truncation to 100 entries. -/
theorem save_landing_eq_take (history : List HistoryEntry) (data : LandingData) :
    save_landing_to_history history data = (mk_history_entry data :: history).take 100 := by
  simp only [save_landing_to_history]
  split
  · rfl
  · next hle => exact (List.take_of_length_le (by omega)).symm

/-- Truncation absorbs an inner truncation across an append. -/
theorem take_append_take (n : ℕ) (A B : List HistoryEntry) :
    (A ++ B.take n).take n = (A ++ B).take n := by
  simp [List.take_append_eq_append_take, List.take_take, Nat.min_eq_left (Nat.sub_le n A.length)]

/-- Folding record over a nonempty batch equals truncating the reversed
batch prepended to the starting history. -/
theorem foldl_save_eq (datas : List LandingData) (d : LandingData) :
    ∀ history : List HistoryEntry,
      ((d :: datas).foldl save_landing_to_history history) =
        (((d :: datas).map mk_history_entry).reverse ++ history).take 100 := by
  induction datas generalizing d with
  | nil =>
    intro history
    simp [save_landing_eq_take]
  | cons d2 rest ih =>
    intro history
    have step : ((d :: d2 :: rest).foldl save_landing_to_history history) =
        ((d2 :: rest).foldl save_landing_to_history (save_landing_to_history history d)) := rfl
    rw [step, ih d2 (save_landing_to_history history d), save_landing_eq_take]
    rw [take_append_take]
    congr 1
    simp

/-- C3: 101 records from any start leave exactly the 100 most recent
entries, newest first; record and clear keep the length bound, and record
always puts the new entry at the head. -/
theorem c3_history_capacity_order (history : List HistoryEntry)
    (datas : List LandingData) (h101 : datas.length = 101) :
    (datas.foldl save_landing_to_history history).length = 100 ∧
    datas.foldl save_landing_to_history history =
      ((datas.map mk_history_entry).reverse).take 100 ∧
    (∀ (h : List HistoryEntry) (d : LandingData),
      (save_landing_to_history h d).length ≤ 100 ∧
      (save_landing_to_history h d).head? = some (mk_history_entry d)) ∧
    clear_history_op = [] := by
  have hmain : datas.foldl save_landing_to_history history =
      ((datas.map mk_history_entry).reverse).take 100 := by
    match datas, h101 with
    | d :: rest, h101 =>
      rw [foldl_save_eq rest d history]
      rw [List.take_append_of_le_length]
      simp at h101 ⊢
      omega
  refine ⟨?_, hmain, ?_, rfl⟩
  · rw [hmain, List.length_take]
    simp [h101]
  · intro h d
    constructor
    · rw [save_landing_eq_take, List.length_take]
      omega
    · rw [save_landing_eq_take, List.head?_take]
      simp

/-- C3 witness: recording 101 concrete entries into an empty store leaves
exactly 100. -/
theorem c3_witness :
    (List.replicate 101 initial_landing_data).length = 101 ∧
    ((List.replicate 101 initial_landing_data).foldl save_landing_to_history []).length = 100 :=
  ⟨by simp, (c3_history_capacity_order [] (List.replicate 101 initial_landing_data) (by simp)).1⟩

/-- C7: history loading returns the empty sequence on a missing or
malformed file, and a nonempty result can only come from a parsed file. -/
theorem c7_load_never_raises :
    load_landing_history .absent = [] ∧
    load_landing_history .malformed = [] ∧
    (∀ f : HistoryFile, load_landing_history f ≠ [] →
      ∃ records, f = .parsed records) := by
  refine ⟨rfl, rfl, ?_⟩
  intro f hf
  cases f with
  | absent => exact absurd rfl hf
  | malformed => exact absurd rfl hf
  | parsed records => exact ⟨records, rfl⟩

/-- C7 witness: a parsed one-row file loads nonempty. -/
theorem c7_witness :
    load_landing_history (.parsed [sample_history_entry]) ≠ [] ∧
    ∃ records, (HistoryFile.parsed [sample_history_entry]) = .parsed records :=
  ⟨by simp [load_landing_history],
   c7_load_never_raises.2.2 _ (by simp [load_landing_history])⟩

/-- C8: a failing telemetry read leaves the whole detector state unchanged,
emits only a warning, sleeps 2 seconds instead of 1, and the loop goes on
with the remaining ticks. -/
theorem c8_transient_error_atomic (dist : ℚ → ℚ → ℚ → ℚ → ℚ) (s : MState)
    (sample : Sample) (due : Bool) (ts : List TickInput) :
    monitor_tick dist s .err = (s, [Event.warning], 2) ∧
    (monitor_tick dist s .err).1.was_airborne = s.was_airborne ∧
    (monitor_tick dist s .err).1.recording_approach = s.recording_approach ∧
    (monitor_tick dist s .err).1.landing_data.on_ground = s.landing_data.on_ground ∧
    (monitor_tick dist s .err).1.approach_path = s.approach_path ∧
    (monitor_tick dist s .err).1.landing_history = s.landing_history ∧
    (monitor_tick dist s (.ok sample due)).2.2 = 1 ∧
    (monitor_run dist s (.err :: ts)).1 = (monitor_run dist s ts).1 ∧
    (monitor_run dist s (.err :: ts)).2 = Event.warning :: (monitor_run dist s ts).2 :=
  ⟨rfl, rfl, rfl, rfl, rfl, rfl, rfl, rfl, rfl⟩

/-- Squared sine of a half-angle is insensitive to the order of the
subtraction inside the degree-to-radian conversion. -/
theorem sin_sq_radians_sub_comm (a b : ℝ) :
    Real.sin (radians (a - b) / 2) ^ 2 = Real.sin (radians (b - a) / 2) ^ 2 := by
  have h : radians (a - b) / 2 = -(radians (b - a) / 2) := by
    unfold radians; ring
  rw [h, Real.sin_neg, neg_sq]

/-- C9: the haversine distance is a total function on ℝ⁴ and satisfies
d(A,A) = 0 and d(A,B) = d(B,A). -/
theorem c9_distance_zero_self_symmetric (lat1 lon1 lat2 lon2 : ℝ) :
    calculate_distance lat1 lon1 lat1 lon1 = 0 ∧
    calculate_distance lat1 lon1 lat2 lon2 = calculate_distance lat2 lon2 lat1 lon1 := by
  constructor
  · simp [calculate_distance, radians, Real.arcsin_zero]
  · simp only [calculate_distance]
    rw [sin_sq_radians_sub_comm lat2 lat1, sin_sq_radians_sub_comm lon2 lon1,
      mul_comm (Real.cos (radians lat1)) (Real.cos (radians lat2))]

end MSFS
namespace MSFS

theorem touchdown_count_append (a b : List Event) :
    touchdown_count (a ++ b) = touchdown_count a + touchdown_count b := by
  simp [touchdown_count, List.filter_append]

theorem airborne_count_append (a b : List Event) :
    airborne_count (a ++ b) = airborne_count a + airborne_count b := by
  simp [airborne_count, List.filter_append]

theorem check_waypoints_touchdown_count (dist : ℚ → ℚ → ℚ → ℚ → ℚ) (lat lon : ℚ)
    (l : List Waypoint) : touchdown_count (check_waypoints dist lat lon l).2 = 0 := by
  induction l with
  | nil => rfl
  | cons wp rest ih =>
    simp only [check_waypoints]
    rw [touchdown_count_append, ih]
    split_ifs <;> rfl

theorem check_waypoints_airborne_count (dist : ℚ → ℚ → ℚ → ℚ → ℚ) (lat lon : ℚ)
    (l : List Waypoint) : airborne_count (check_waypoints dist lat lon l).2 = 0 := by
  induction l with
  | nil => rfl
  | cons wp rest ih =>
    simp only [check_waypoints]
    rw [airborne_count_append, ih]
    split_ifs <;> rfl

theorem takeoff_step_touchdown_count (s : MState) (sample : Sample) :
    touchdown_count (takeoff_step s sample).2 = 0 := by
  unfold takeoff_step; split_ifs <;> rfl

theorem takeoff_step_airborne_count (s : MState) (sample : Sample) :
    airborne_count (takeoff_step s sample).2 =
      if sample.on_ground = 0 ∧ s.was_airborne = false then 1 else 0 := by
  unfold takeoff_step; split_ifs <;> rfl

theorem takeoff_step_was_airborne (s : MState) (sample : Sample) :
    (takeoff_step s sample).1.was_airborne =
      if sample.on_ground = 0 ∧ s.was_airborne = false then true else s.was_airborne := by
  unfold takeoff_step; split_ifs <;> rfl

theorem takeoff_step_latch (s : MState) (sample : Sample) :
    (takeoff_step s sample).1.landing_data.on_ground =
      if sample.on_ground = 0 ∧ s.was_airborne = false then false
      else s.landing_data.on_ground := by
  unfold takeoff_step; split_ifs <;> rfl

theorem approach_step_touchdown_count (s : MState) (sample : Sample) :
    touchdown_count (approach_step s sample).2 = 0 := by
  unfold approach_step; split_ifs <;> rfl

theorem approach_step_airborne_count (s : MState) (sample : Sample) :
    airborne_count (approach_step s sample).2 = 0 := by
  unfold approach_step; split_ifs <;> rfl

theorem approach_step_was_airborne (s : MState) (sample : Sample) :
    (approach_step s sample).1.was_airborne = s.was_airborne := by
  unfold approach_step; split_ifs <;> rfl

theorem approach_step_landing_data (s : MState) (sample : Sample) :
    (approach_step s sample).1.landing_data = s.landing_data := by
  unfold approach_step; split_ifs <;> rfl

theorem landing_step_touchdown_count (dist : ℚ → ℚ → ℚ → ℚ → ℚ) (s : MState)
    (sample : Sample) :
    touchdown_count (landing_step dist s sample).2 =
      if sample.on_ground = 1 ∧ s.was_airborne = true ∧ s.landing_data.on_ground = false
      then 1 else 0 := by
  simp only [landing_step]; split_ifs <;> rfl

theorem landing_step_airborne_count (dist : ℚ → ℚ → ℚ → ℚ → ℚ) (s : MState)
    (sample : Sample) : airborne_count (landing_step dist s sample).2 = 0 := by
  simp only [landing_step]; split_ifs <;> rfl

theorem landing_step_was_airborne (dist : ℚ → ℚ → ℚ → ℚ → ℚ) (s : MState)
    (sample : Sample) : (landing_step dist s sample).1.was_airborne = s.was_airborne := by
  simp only [landing_step]; split_ifs <;> rfl

theorem landing_step_latch (dist : ℚ → ℚ → ℚ → ℚ → ℚ) (s : MState) (sample : Sample) :
    (landing_step dist s sample).1.landing_data.on_ground =
      if sample.on_ground = 1 ∧ s.was_airborne = true ∧ s.landing_data.on_ground = false
      then true else s.landing_data.on_ground := by
  simp only [landing_step]; split_ifs <;> rfl

theorem landing_step_approach_path (dist : ℚ → ℚ → ℚ → ℚ → ℚ) (s : MState)
    (sample : Sample) : (landing_step dist s sample).1.approach_path = s.approach_path := by
  simp only [landing_step]; split_ifs <;> rfl

theorem landing_step_recording (dist : ℚ → ℚ → ℚ → ℚ → ℚ) (s : MState) (sample : Sample) :
    (landing_step dist s sample).1.recording_approach =
      if sample.on_ground = 1 ∧ s.was_airborne = true ∧ s.landing_data.on_ground = false
      then false else s.recording_approach := by
  simp only [landing_step]; split_ifs <;> rfl

theorem waypoint_step_touchdown_count (dist : ℚ → ℚ → ℚ → ℚ → ℚ) (s : MState)
    (sample : Sample) (due : Bool) :
    touchdown_count (waypoint_step dist s sample due).2 = 0 := by
  unfold waypoint_step
  split_ifs
  · exact check_waypoints_touchdown_count dist sample.lat sample.lon s.waypoints
  · rfl

theorem waypoint_step_airborne_count (dist : ℚ → ℚ → ℚ → ℚ → ℚ) (s : MState)
    (sample : Sample) (due : Bool) :
    airborne_count (waypoint_step dist s sample due).2 = 0 := by
  unfold waypoint_step
  split_ifs
  · exact check_waypoints_airborne_count dist sample.lat sample.lon s.waypoints
  · rfl

theorem waypoint_step_was_airborne (dist : ℚ → ℚ → ℚ → ℚ → ℚ) (s : MState)
    (sample : Sample) (due : Bool) :
    (waypoint_step dist s sample due).1.was_airborne = s.was_airborne := by
  unfold waypoint_step; split_ifs <;> rfl

theorem waypoint_step_landing_data (dist : ℚ → ℚ → ℚ → ℚ → ℚ) (s : MState)
    (sample : Sample) (due : Bool) :
    (waypoint_step dist s sample due).1.landing_data = s.landing_data := by
  unfold waypoint_step; split_ifs <;> rfl

theorem tick_ok_touchdown_count (dist : ℚ → ℚ → ℚ → ℚ → ℚ) (s : MState)
    (sample : Sample) (due : Bool) :
    touchdown_count (monitor_tick dist s (.ok sample due)).2.1 =
      if sample.on_ground = 1 ∧ s.was_airborne = true ∧ s.landing_data.on_ground = false
      then 1 else 0 := by
  simp only [monitor_tick]
  rw [touchdown_count_append, touchdown_count_append, touchdown_count_append,
    takeoff_step_touchdown_count, approach_step_touchdown_count,
    landing_step_touchdown_count, waypoint_step_touchdown_count,
    approach_step_was_airborne, approach_step_landing_data,
    takeoff_step_was_airborne, takeoff_step_latch]
  by_cases hog : sample.on_ground = 1
  · simp [hog]
  · simp [hog]

theorem tick_ok_airborne_count (dist : ℚ → ℚ → ℚ → ℚ → ℚ) (s : MState)
    (sample : Sample) (due : Bool) :
    airborne_count (monitor_tick dist s (.ok sample due)).2.1 =
      if sample.on_ground = 0 ∧ s.was_airborne = false then 1 else 0 := by
  simp only [monitor_tick]
  rw [airborne_count_append, airborne_count_append, airborne_count_append,
    takeoff_step_airborne_count, approach_step_airborne_count,
    landing_step_airborne_count, waypoint_step_airborne_count]
  simp

theorem tick_ok_was_airborne (dist : ℚ → ℚ → ℚ → ℚ → ℚ) (s : MState)
    (sample : Sample) (due : Bool) :
    (monitor_tick dist s (.ok sample due)).1.was_airborne =
      if sample.on_ground = 0 ∧ s.was_airborne = false then true else s.was_airborne := by
  simp only [monitor_tick]
  rw [show (∀ m : MState, ({ m with last_altitude := sample.alt } : MState).was_airborne =
    m.was_airborne) from fun m => rfl]
  rw [waypoint_step_was_airborne, landing_step_was_airborne, approach_step_was_airborne,
    takeoff_step_was_airborne]

theorem tick_ok_latch (dist : ℚ → ℚ → ℚ → ℚ → ℚ) (s : MState)
    (sample : Sample) (due : Bool) :
    (monitor_tick dist s (.ok sample due)).1.landing_data.on_ground =
      if sample.on_ground = 0 ∧ s.was_airborne = false then false
      else if sample.on_ground = 1 ∧ s.was_airborne = true ∧ s.landing_data.on_ground = false
      then true else s.landing_data.on_ground := by
  simp only [monitor_tick]
  rw [show (∀ m : MState, ({ m with last_altitude := sample.alt } : MState).landing_data =
    m.landing_data) from fun m => rfl]
  rw [waypoint_step_landing_data, landing_step_latch, approach_step_was_airborne,
    approach_step_landing_data, takeoff_step_was_airborne, takeoff_step_latch]
  by_cases h0 : sample.on_ground = 0 ∧ s.was_airborne = false
  · have : ¬ sample.on_ground = 1 := by
      rcases h0 with ⟨h0l, _⟩; omega
    simp [h0, this]
  · simp [h0]

end MSFS
namespace MSFS

/-- Once airborne, the takeoff branch is dead: no further airborne event in
the rest of the session. -/
theorem run_airborne_zero (dist : ℚ → ℚ → ℚ → ℚ → ℚ) :
    ∀ (ts : List TickInput) (s : MState), s.was_airborne = true →
      airborne_count (monitor_run dist s ts).2 = 0 := by
  intro ts
  induction ts with
  | nil => intro s _; rfl
  | cons t rest ih =>
    intro s hwa
    cases t with
    | err =>
      simp only [monitor_run,
        show monitor_tick dist s TickInput.err = (s, [Event.warning], 2) from rfl]
      rw [airborne_count_append, ih s hwa]
      rfl
    | ok sample due =>
      simp only [monitor_run]
      rw [airborne_count_append, tick_ok_airborne_count,
        ih _ (by rw [tick_ok_was_airborne]; simp [hwa])]
      simp [hwa]

/-- Each session emits the airborne event at most once. -/
theorem run_airborne_le_one (dist : ℚ → ℚ → ℚ → ℚ → ℚ) :
    ∀ (ts : List TickInput) (s : MState),
      airborne_count (monitor_run dist s ts).2 ≤ 1 := by
  intro ts
  induction ts with
  | nil => intro s; simp [monitor_run, airborne_count]
  | cons t rest ih =>
    intro s
    cases t with
    | err =>
      simp only [monitor_run,
        show monitor_tick dist s TickInput.err = (s, [Event.warning], 2) from rfl]
      rw [airborne_count_append,
        show airborne_count [Event.warning] = 0 from rfl, Nat.zero_add]
      exact ih s
    | ok sample due =>
      simp only [monitor_run]
      rw [airborne_count_append, tick_ok_airborne_count]
      by_cases h0 : sample.on_ground = 0 ∧ s.was_airborne = false
      · rw [if_pos h0, run_airborne_zero dist rest _ (by rw [tick_ok_was_airborne]; simp [h0])]
      · rw [if_neg h0]
        simpa using ih ((monitor_tick dist s (.ok sample due)).1)

/-- From a state that is airborne with the latch set, no touchdown event
can ever fire again. -/
theorem run_touchdown_zero (dist : ℚ → ℚ → ℚ → ℚ → ℚ) :
    ∀ (ts : List TickInput) (s : MState), s.was_airborne = true →
      s.landing_data.on_ground = true →
      touchdown_count (monitor_run dist s ts).2 = 0 := by
  intro ts
  induction ts with
  | nil => intro s _ _; rfl
  | cons t rest ih =>
    intro s hwa hlatch
    cases t with
    | err =>
      simp only [monitor_run,
        show monitor_tick dist s TickInput.err = (s, [Event.warning], 2) from rfl]
      rw [touchdown_count_append, ih s hwa hlatch]
      rfl
    | ok sample due =>
      simp only [monitor_run]
      rw [touchdown_count_append, tick_ok_touchdown_count,
        ih _ (by rw [tick_ok_was_airborne]; simp [hwa])
           (by rw [tick_ok_latch]; simp [hwa, hlatch])]
      simp [hlatch]

/-- Each session emits the touchdown event at most once: firing sets the
latch, and the latch can only be cleared by a takeoff branch that is dead
once `was_airborne` holds. -/
theorem run_touchdown_le_one (dist : ℚ → ℚ → ℚ → ℚ → ℚ) :
    ∀ (ts : List TickInput) (s : MState),
      touchdown_count (monitor_run dist s ts).2 ≤ 1 := by
  intro ts
  induction ts with
  | nil => intro s; simp [monitor_run, touchdown_count]
  | cons t rest ih =>
    intro s
    cases t with
    | err =>
      simp only [monitor_run,
        show monitor_tick dist s TickInput.err = (s, [Event.warning], 2) from rfl]
      rw [touchdown_count_append,
        show touchdown_count [Event.warning] = 0 from rfl, Nat.zero_add]
      exact ih s
    | ok sample due =>
      simp only [monitor_run]
      rw [touchdown_count_append, tick_ok_touchdown_count]
      by_cases hg : sample.on_ground = 1 ∧ s.was_airborne = true ∧
          s.landing_data.on_ground = false
      · rw [if_pos hg, run_touchdown_zero dist rest _
          (by rw [tick_ok_was_airborne]; simp [hg.2.1])
          (by
            rw [tick_ok_latch]
            have h1 : ¬ sample.on_ground = 0 := by
              have := hg.1; omega
            simp [h1, hg.1, hg.2.1, hg.2.2])]
      · rw [if_neg hg]
        simpa using ih ((monitor_tick dist s (.ok sample due)).1)

/-- C10: in one monitoring session, however the on-ground stream behaves,
at most one airborne event and at most one touchdown event are emitted. -/
theorem c10_at_most_one_per_session (dist : ℚ → ℚ → ℚ → ℚ → ℚ)
    (wps : List Waypoint) (hist : List HistoryEntry) (ts : List TickInput) :
    airborne_count (monitor_run dist (initial_state wps hist) ts).2 ≤ 1 ∧
    touchdown_count (monitor_run dist (initial_state wps hist) ts).2 ≤ 1 :=
  ⟨run_airborne_le_one dist ts (initial_state wps hist),
   run_touchdown_le_one dist ts (initial_state wps hist)⟩

end MSFS
namespace MSFS

/-- C1 counterexample: on the on-ground stream [0,0,1,1,0,1] from a fresh
session the detector emits exactly one touchdown event, not two. -/
theorem c1_counterexample :
    touchdown_count (monitor_run dist0 (initial_state [] []) c1_ticks).2 = 1 ∧
    touchdown_count (monitor_run dist0 (initial_state [] []) c1_ticks).2 ≠ 2 := by
  constructor <;> decide

/-- C1 (amended): on [0,0,1,1,0,1] exactly one touchdown fires, at the 3rd
sample; a tick emits a touchdown exactly when the sample is on ground, the
session is airborne and the latch is clear; and a session emits at most one
touchdown overall. -/
theorem c1_touchdown_latch_amended :
    touchdown_count (monitor_run dist0 (initial_state [] []) (c1_ticks.take 2)).2 = 0 ∧
    touchdown_count (monitor_run dist0 (initial_state [] []) (c1_ticks.take 3)).2 = 1 ∧
    touchdown_count (monitor_run dist0 (initial_state [] []) c1_ticks).2 = 1 ∧
    (∀ (dist : ℚ → ℚ → ℚ → ℚ → ℚ) (s : MState) (sample : Sample) (due : Bool),
      touchdown_count (monitor_tick dist s (.ok sample due)).2.1 =
        if sample.on_ground = 1 ∧ s.was_airborne = true ∧ s.landing_data.on_ground = false
        then 1 else 0) ∧
    (∀ (dist : ℚ → ℚ → ℚ → ℚ → ℚ) (ts : List TickInput) (wps : List Waypoint)
      (hist : List HistoryEntry),
      touchdown_count (monitor_run dist (initial_state wps hist) ts).2 ≤ 1) :=
  ⟨by decide, by decide, by decide, tick_ok_touchdown_count,
   fun dist ts wps hist => run_touchdown_le_one dist ts (initial_state wps hist)⟩

/-- C4 counterexample: a run with a recorded approach and a touchdown ends
with a nonempty approach path — the path is not cleared at touchdown. -/
theorem c4_counterexample :
    touchdown_count (monitor_run dist0 (initial_state [] []) c4_ticks).2 = 1 ∧
    (monitor_run dist0 (initial_state [] []) c4_ticks).1.approach_path ≠ [] := by
  constructor <;> decide

/-- C4 (amended): the touchdown branch reads the approach path but leaves
it unchanged, resetting only `recording_approach`; the path is cleared at
the start of each monitoring session. -/
theorem c4_approach_path_amended :
    (∀ (dist : ℚ → ℚ → ℚ → ℚ → ℚ) (s : MState) (sample : Sample),
      (landing_step dist s sample).1.approach_path = s.approach_path) ∧
    (∀ (dist : ℚ → ℚ → ℚ → ℚ → ℚ) (s : MState) (sample : Sample),
      (landing_step dist s sample).1.recording_approach =
        if sample.on_ground = 1 ∧ s.was_airborne = true ∧ s.landing_data.on_ground = false
        then false else s.recording_approach) ∧
    (∀ (wps : List Waypoint) (hist : List HistoryEntry),
      (initial_state wps hist).approach_path = []) :=
  ⟨landing_step_approach_path, landing_step_recording, fun _ _ => rfl⟩

/-- The average of the source comprehension equals the spec mean of the
absolute consecutive altitude differences. -/
theorem total_descent_eq_spec (path : List Point) :
    total_descent path / ((path.length : ℚ) - 1) =
      spec_avg_descent (path.map (fun p => p.2.2)) := by
  unfold total_descent spec_avg_descent
  rw [List.length_map]
  congr 1
  rw [← List.map_tail, List.zipWith_map]

/-- C5: at a touchdown with at least two approach points the record gets
approach distance from the first point to the touchdown and the mean
absolute altitude difference as average descent; with fewer points both
fields are left as they were; [2000,1500,1000] gives mean 500. -/
theorem c5_approach_statistics (dist : ℚ → ℚ → ℚ → ℚ → ℚ) (s : MState) (sample : Sample)
    (hg : sample.on_ground = 1 ∧ s.was_airborne = true ∧ s.landing_data.on_ground = false) :
    (2 ≤ s.approach_path.length →
      (landing_step dist s sample).1.landing_data.approach_distance =
        some (dist s.approach_path.headI.1 s.approach_path.headI.2.1 sample.lat sample.lon) ∧
      (landing_step dist s sample).1.landing_data.avg_descent =
        some (spec_avg_descent (s.approach_path.map (fun p => p.2.2)))) ∧
    (s.approach_path.length ≤ 1 →
      (landing_step dist s sample).1.landing_data.approach_distance =
        s.landing_data.approach_distance ∧
      (landing_step dist s sample).1.landing_data.avg_descent =
        s.landing_data.avg_descent) ∧
    spec_avg_descent [2000, 1500, 1000] = 500 := by
  refine ⟨?_, ?_, by norm_num [spec_avg_descent]⟩
  · intro hlen
    constructor
    · simp only [landing_step]
      split_ifs with h1
      · rfl
      · exact absurd (by omega : s.approach_path.length > 1) h1
    · simp only [landing_step]
      split_ifs with h1
      · exact congrArg some (total_descent_eq_spec s.approach_path)
      · exact absurd (by omega : s.approach_path.length > 1) h1
  · intro hlen
    constructor
    · simp only [landing_step]
      split_ifs with h1
      · exact absurd h1 (by omega)
      · rfl
    · simp only [landing_step]
      split_ifs with h1
      · exact absurd h1 (by omega)
      · rfl

/-- C5 witness: the three-point approach at [2000,1500,1000] yields an
average descent of 500 and the distance from the first point. -/
theorem c5_witness :
    (c5_sample.on_ground = 1 ∧ c5_state.was_airborne = true ∧
      c5_state.landing_data.on_ground = false) ∧
    2 ≤ c5_state.approach_path.length ∧
    (landing_step dist0 c5_state c5_sample).1.landing_data.approach_distance = some 0 ∧
    (landing_step dist0 c5_state c5_sample).1.landing_data.avg_descent = some 500 := by
  have h := (c5_approach_statistics dist0 c5_state c5_sample (by decide)).1 (by decide)
  refine ⟨by decide, by decide, h.1, ?_⟩
  rw [h.2]
  norm_num [c5_state, spec_avg_descent]

/-- C6: a pause-flagged waypoint within half a nautical mile triggers one
pause command and one reached event, its flag is cleared, a repeated check
at the same position does nothing, and unflagged waypoints never trigger. -/
theorem c6_waypoint_pause_one_shot (dist : ℚ → ℚ → ℚ → ℚ → ℚ) (lat lon : ℚ)
    (wp : Waypoint) (hp : wp.pause = true) (hd : dist lat lon wp.lat wp.lon < 0.5) :
    check_waypoints dist lat lon [wp] =
      ([{ wp with pause := false }], [Event.pauseSet, Event.waypointReached wp.id]) ∧
    pause_command_count (check_waypoints dist lat lon [wp]).2 = 1 ∧
    check_waypoints dist lat lon (check_waypoints dist lat lon [wp]).1 =
      ((check_waypoints dist lat lon [wp]).1, []) ∧
    (∀ wq : Waypoint, wq.pause = false → check_waypoints dist lat lon [wq] = ([wq], [])) := by
  have hfalse : ∀ wq : Waypoint, wq.pause = false →
      check_waypoints dist lat lon [wq] = ([wq], []) := by
    intro wq hq
    simp [check_waypoints, hq]
  have hbase : check_waypoints dist lat lon [wp] =
      ([{ wp with pause := false }], [Event.pauseSet, Event.waypointReached wp.id]) := by
    simp [check_waypoints, hp, hd]
  refine ⟨hbase, by rw [hbase]; rfl, ?_, hfalse⟩
  rw [hbase]
  exact hfalse _ rfl

/-- C6 witness: a concrete waypoint 0.4 nm away fires exactly once. -/
theorem c6_witness :
    c6_wp.pause = true ∧ dist04 0 0 c6_wp.lat c6_wp.lon < 0.5 ∧
    check_waypoints dist04 0 0 [c6_wp] =
      ([{ c6_wp with pause := false }], [Event.pauseSet, Event.waypointReached c6_wp.id]) ∧
    pause_command_count (check_waypoints dist04 0 0 [c6_wp]).2 = 1 := by
  have h := c6_waypoint_pause_one_shot dist04 0 0 c6_wp rfl (by norm_num [dist04])
  exact ⟨rfl, by norm_num [dist04], h.1, h.2.1⟩

end MSFS
